import Mathlib

/-!
Shallow embedding of the munich-path goal-tracking core:
`src/services/goal_service.py`, `src/database/db_manager.py`, the check-in,
lock and settings pages of `src/app.py`, and the check-in route of
`src/api/routes.py`.

Modelling choices:
* Calendar dates are day indices (`Nat`); `date + timedelta(days=1)` is `+ 1`.
* Hours and money amounts are `ℚ`, counts are `ℤ` (Python ints may be
  negative when they arrive from the API body).
* The sqlite store is a `DB` record of lists mirroring the four tables the
  core touches.  Store failures (the `except sqlite3.Error` branches) are not
  modelled: every db_manager call is the success path, which is what each
  function's `return True` reports.
* `datetime.now().date()` is passed in explicitly as the `today` argument.
-/

namespace MunichPath

/-- One row of the `users` table, restricted to the columns the core
mutates (`current_streak`, `total_streak`, `is_locked`, `lock_end_date`,
`last_checkin`).  `is_locked` is stored as INTEGER 0/1, modelled as `Bool`. -/
structure User where
  current_streak : Nat
  total_streak : Nat
  is_locked : Bool
  lock_end_date : Option Nat
  last_checkin : Option Nat
deriving DecidableEq, Repr

/-- One row of the `daily_goals` table. -/
structure DailyGoalRow where
  user_id : Nat
  date : Nat
  german_hours : ℚ
  tech_hours : ℚ
  applications_sent : ℤ
  words_learned : ℤ
  checkin_completed : Bool
deriving DecidableEq, Repr

/-- One row of the `achievements` table.  The schema in `init_database`
declares `id INTEGER PRIMARY KEY, user_id, achievement_name TEXT NOT NULL,
date_earned TEXT NOT NULL` and no UNIQUE constraint on
`(user_id, achievement_name)`. -/
structure AchievementRow where
  user_id : Nat
  achievement_name : String
  date_earned : Nat
deriving DecidableEq, Repr

/-- One row of the `penalties` table (`paid` defaults to 0). -/
structure PenaltyRow where
  user_id : Nat
  amount : ℚ
  reason : String
  date : Nat
  paid : Bool
deriving DecidableEq, Repr

/-- The sqlite database, restricted to the four tables the core touches.
`users` is keyed by the `id` primary key. -/
structure DB where
  users : List (Nat × User)
  daily_goals : List DailyGoalRow
  achievements : List AchievementRow
  penalties : List PenaltyRow
deriving DecidableEq, Repr

/-! ## db_manager.py -/

/-- `get_user`: `SELECT * FROM users WHERE id = ?`, first match or `None`. -/
def get_user (db : DB) (uid : Nat) : Option User :=
  (db.users.find? (fun p => p.1 == uid)).map Prod.snd

/-- UPDATE of the `users` row(s) with `id = uid` (the primary key makes the
match unique, but SQL UPDATE touches every matching row, hence `map`). -/
def update_user_row (db : DB) (uid : Nat) (f : User → User) : DB :=
  { db with users := db.users.map (fun p => if p.1 == uid then (p.1, f p.2) else p) }

/-- `update_user_streak_data`: overwrites the five streak/lock columns of the
user's row.  (An UPDATE matching zero rows still commits, so the Python
function returns True even for an unknown id.) -/
def update_user_streak_data (db : DB) (uid : Nat) (cs ts : Nat) (locked : Bool)
    (lockEnd lastCk : Option Nat) : DB :=
  update_user_row db uid (fun _ => ⟨cs, ts, locked, lockEnd, lastCk⟩)

/-- `log_daily_goals_db`: upsert of the `(user_id, date)` daily-goals row —
UPDATE the existing row if a `SELECT` finds one, INSERT otherwise. -/
def log_daily_goals_db (db : DB) (uid date : Nat) (gh th : ℚ) (apps wl : ℤ)
    (cc : Bool) : DB :=
  if db.daily_goals.any (fun r => r.user_id == uid && r.date == date) then
    { db with daily_goals := db.daily_goals.map (fun r =>
        if r.user_id == uid && r.date == date then
          { r with german_hours := gh, tech_hours := th,
                   applications_sent := apps, words_learned := wl,
                   checkin_completed := cc }
        else r) }
  else
    { db with daily_goals :=
        db.daily_goals ++ [⟨uid, date, gh, th, apps, wl, cc⟩] }

/-- `add_penalty_db`: plain INSERT into `penalties` (`paid` defaults to 0);
returns True.  There is no CHECK constraint on `amount`. -/
def add_penalty_db (db : DB) (uid : Nat) (amount : ℚ) (reason : String)
    (date : Nat) : DB × Bool :=
  ({ db with penalties := db.penalties ++ [⟨uid, amount, reason, date, false⟩] }, true)

/-- `add_achievement_db`: plain INSERT into `achievements`.  The `except
sqlite3.IntegrityError` branch (returning False) is unreachable for a repeat
`(user_id, achievement_name)` because the schema has no UNIQUE constraint on
that pair, so the INSERT always succeeds and the function returns True. -/
def add_achievement_db (db : DB) (uid : Nat) (name : String) (date : Nat) :
    DB × Bool :=
  ({ db with achievements := db.achievements ++ [⟨uid, name, date⟩] }, true)

/-- `unlock_app_db`: `UPDATE users SET is_locked = 0, lock_end_date = NULL`. -/
def unlock_app_db (db : DB) (uid : Nat) : DB × Bool :=
  (update_user_row db uid
    (fun u => { u with is_locked := false, lock_end_date := none }), true)

/-- `reset_streak_and_unlock_db`: `UPDATE users SET current_streak = 0,
is_locked = 0, lock_end_date = NULL`. -/
def reset_streak_and_unlock_db (db : DB) (uid : Nat) : DB × Bool :=
  (update_user_row db uid
    (fun u => { u with current_streak := 0, is_locked := false,
                       lock_end_date := none }), true)

/-! ## goal_service.py -/

/-- The goal predicate of `log_daily_goals` (and, inline, of
`checkin_page`): all four thresholds inclusive. -/
def goalsMet (gh th : ℚ) (apps wl : ℤ) : Bool :=
  decide (gh ≥ 2) && decide (th ≥ 3) && decide (apps ≥ 5) && decide (wl ≥ 50)

/-- `update_user_streak`: fetches the user (returning False untouched when
absent); on `streak_broken` zeroes `current_streak`, locks, and sets
`lock_end_date := today + 1`; otherwise increments both streak counters and
clears `lock_end_date`.  Note the success branch keeps the fetched
`is_locked` value: only `lock_end_date` (initialised to None) is cleared. -/
def update_user_streak (db : DB) (uid today : Nat) (streak_broken : Bool) :
    DB × Bool :=
  match get_user db uid with
  | none => (db, false)
  | some u =>
    if streak_broken then
      (update_user_streak_data db uid 0 u.total_streak true (some (today + 1))
        (some today), true)
    else
      (update_user_streak_data db uid (u.current_streak + 1)
        (u.total_streak + 1) u.is_locked none (some today), true)

/-- `add_penalty`: dates the penalty today and inserts it; no validation of
`amount` anywhere on the path. -/
def add_penalty (db : DB) (uid : Nat) (amount : ℚ) (reason : String)
    (today : Nat) : DB × Bool :=
  add_penalty_db db uid amount reason today

/-- `add_achievement`: dates the achievement today and delegates to
`add_achievement_db`. -/
def add_achievement (db : DB) (uid : Nat) (name : String) (today : Nat) :
    DB × Bool :=
  add_achievement_db db uid name today

/-- `unlock_app`: delegates to `unlock_app_db`. -/
def unlock_app (db : DB) (uid : Nat) : DB × Bool :=
  unlock_app_db db uid

/-- `reset_streak_and_unlock`: delegates to `reset_streak_and_unlock_db`. -/
def reset_streak_and_unlock (db : DB) (uid : Nat) : DB × Bool :=
  reset_streak_and_unlock_db db uid

/-- Return value of `log_daily_goals`: the mutated store plus the
`(bool, message)` tuple the Python function returns. -/
structure LogResult where
  db : DB
  ok : Bool
  message : String
deriving DecidableEq, Repr

/-- `log_daily_goals`: evaluates the thresholds, upserts the daily record
(with `checkin_completed` = the verdict), then — on every call, with no
per-date debounce — applies the streak transition, adding a 10.0 penalty on
the fail branch.  The store-failure branch (`return False, "Failed to log
daily goals."`) is the unmodelled sqlite error path. -/
def log_daily_goals (db : DB) (uid today : Nat) (gh th : ℚ) (apps wl : ℤ) :
    LogResult :=
  let met := goalsMet gh th apps wl
  let db1 := log_daily_goals_db db uid today gh th apps wl met
  if met then
    ⟨(update_user_streak db1 uid today false).1, true, "Daily goals completed!"⟩
  else
    let db2 := (update_user_streak db1 uid today true).1
    ⟨(add_penalty db2 uid 10 "Daily goals not met" today).1, false,
      "Daily goals not met. App locked for 24 hours and penalty applied."⟩

/-! ## api/routes.py -/

/-- The JSON body of `POST /api/checkin`; each metric may be absent. -/
structure CheckinBody where
  german_hours : Option ℚ
  tech_hours : Option ℚ
  applications_sent : Option ℤ
  words_learned : Option ℤ
deriving DecidableEq, Repr

/-- `api_checkin` reads each metric with `data.get(key, 0)` — a missing
metric defaults to 0 — and hands them to `log_daily_goals`; this is the
verdict that call computes. -/
def api_checkin_goals_met (b : CheckinBody) : Bool :=
  goalsMet (b.german_hours.getD 0) (b.tech_hours.getD 0)
    (b.applications_sent.getD 0) (b.words_learned.getD 0)

/-! ## app.py — check-in page, lock page, settings page -/

/-- The milestone block of `checkin_page`: re-fetches the user and, on an
exact streak match, awards the milestone name. -/
def milestone_check (db : DB) (uid today : Nat) : DB :=
  match get_user db uid with
  | none => db
  | some u =>
    if u.current_streak == 7 then (add_achievement db uid "Week Warrior" today).1
    else if u.current_streak == 30 then (add_achievement db uid "Monthly Master" today).1
    else if u.current_streak == 100 then (add_achievement db uid "Century Champion" today).1
    else if u.current_streak == 365 then (add_achievement db uid "Yearly Legend" today).1
    else db

/-- The submit handler of `checkin_page`.  On `goal_met` it calls
`log_daily_goals` (whose return value, a nonempty tuple, is always truthy in
Python, so the guarded block always runs), then calls `update_user_streak`
a second time, then runs the milestone check on the re-fetched streak.  On
the else branch it breaks the streak and adds the 10.0 penalty directly
(without upserting a daily record). -/
def checkin_page_submit (db : DB) (uid today : Nat) (gh th : ℚ)
    (apps wl : ℤ) : DB :=
  if goalsMet gh th apps wl then
    let r := log_daily_goals db uid today gh th apps wl
    let db2 := (update_user_streak r.db uid today false).1
    milestone_check db2 uid today
  else
    let db1 := (update_user_streak db uid today true).1
    (add_penalty db1 uid 10 "Daily goals not met" today).1

/-- The metric parameters of `log_daily_goals(user_id, german_hours,
tech_hours, applications_sent, words_learned)` after the positionally bound
`user_id`; none has a default. -/
def log_daily_goals_kwparams : List String :=
  ["german_hours", "tech_hours", "applications_sent", "words_learned"]

/-- Python binds a call `log_daily_goals(user_id, **kwargs)` only when every
keyword names a parameter and every default-less parameter receives a value;
otherwise the call raises TypeError before the body runs. -/
def kwargs_bind_ok (kwargs : List String) : Bool :=
  kwargs.all (fun k => log_daily_goals_kwparams.contains k) &&
  log_daily_goals_kwparams.all (fun p => kwargs.contains p)

/-- The keywords `lock_page` passes in its 3h-German redemption branch:
`log_daily_goals(user_id, german_hours=3.0, checkin_completed=1)`. -/
def lock_page_german_kwargs : List String :=
  ["german_hours", "checkin_completed"]

/-- The 3h-German redemption branch of `lock_page`: were the call to
`log_daily_goals` well-formed it would log the task and then call
`unlock_app`; as written the keywords do not bind (`checkin_completed` is
not a parameter and three required metrics are missing), so the handler
raises TypeError before touching the store. -/
def lock_page_redeem_german (db : DB) (uid today : Nat) : Except String DB :=
  if kwargs_bind_ok lock_page_german_kwargs then
    Except.ok (unlock_app (log_daily_goals db uid today 3 0 0 0).db uid).1
  else
    Except.error "TypeError"

/-- The state after the first step of the confirmed emergency unlock in
`settings_page`: the 50.0 penalty has been committed, the user row is not
yet touched. -/
def emergency_unlock_mid (db : DB) (uid today : Nat) : DB :=
  (add_penalty db uid 50 "Emergency unlock" today).1

/-- The confirmed emergency unlock of `settings_page`: add the 50.0 penalty
first and, if that succeeded, reset the streak and clear the lock. -/
def settings_emergency_unlock (db : DB) (uid today : Nat) : DB :=
  let r := add_penalty db uid 50 "Emergency unlock" today
  if r.2 then (reset_streak_and_unlock r.1 uid).1 else r.1

/-! ## Concrete stores used by the closed theorems -/

/-- A store holding one freshly registered user (id 1): both streaks 0, not
locked, never checked in. -/
def freshDB : DB :=
  ⟨[(1, ⟨0, 0, false, none, none⟩)], [], [], []⟩

/-- A store holding one user (id 1) who is currently Locked: streak 3, total
10, locked until day 5, last check-in day 4. -/
def lockedDB : DB :=
  ⟨[(1, ⟨3, 10, true, some 5, some 4⟩)], [], [], []⟩

/-- `n` consecutive passing check-ins through the UI handler, user 1,
metrics exactly at the thresholds, on days `0, 1, …, n-1`. -/
def run_week (db : DB) (uid : Nat) : Nat → DB
  | 0 => db
  | n + 1 => checkin_page_submit (run_week db uid n) uid n 2 3 5 50

/-- Penalties of one user, as `get_user_penalties` filters them. -/
def penalties_of (db : DB) (uid : Nat) : List PenaltyRow :=
  db.penalties.filter (fun r => r.user_id == uid)

/-- Achievement rows of one user with a given name. -/
def achievements_named (db : DB) (uid : Nat) (name : String) :
    List AchievementRow :=
  db.achievements.filter (fun r => r.user_id == uid && r.achievement_name == name)

end MunichPath

namespace MunichPath

/-! ## Helper lemmas about the store operations -/

theorem find_map_update (l : List (Nat × User)) (uid : Nat) (f : User → User) :
    (l.map (fun p => if p.1 == uid then (p.1, f p.2) else p)).find?
        (fun p => p.1 == uid) =
      (l.find? (fun p => p.1 == uid)).map (fun p => (p.1, f p.2)) := by
  induction l with
  | nil => rfl
  | cons a t ih =>
    by_cases h : a.1 = uid
    · simp [List.find?_cons, h]
    · have h1 : ¬ ((a.1 == uid) = true) := by simp [h]
      have hb : (a.1 == uid) = false := by simp [h]
      rw [List.map_cons, List.find?_cons, List.find?_cons, if_neg h1]
      simp only [hb]
      exact ih

theorem get_user_update_user_row (db : DB) (uid : Nat) (f : User → User) :
    get_user (update_user_row db uid f) uid = (get_user db uid).map f := by
  simp only [get_user, update_user_row, find_map_update, Option.map_map]
  cases db.users.find? (fun p => p.1 == uid) <;> rfl

theorem update_user_row_penalties (db : DB) (uid : Nat) (f : User → User) :
    (update_user_row db uid f).penalties = db.penalties := rfl

theorem update_user_row_achievements (db : DB) (uid : Nat) (f : User → User) :
    (update_user_row db uid f).achievements = db.achievements := rfl

theorem log_daily_goals_db_users (db : DB) (uid date : Nat) (gh th : ℚ)
    (apps wl : ℤ) (cc : Bool) :
    (log_daily_goals_db db uid date gh th apps wl cc).users = db.users := by
  unfold log_daily_goals_db
  split <;> rfl

theorem log_daily_goals_db_penalties (db : DB) (uid date : Nat) (gh th : ℚ)
    (apps wl : ℤ) (cc : Bool) :
    (log_daily_goals_db db uid date gh th apps wl cc).penalties = db.penalties := by
  unfold log_daily_goals_db
  split <;> rfl

theorem get_user_log_daily_goals_db (db : DB) (uid date : Nat) (gh th : ℚ)
    (apps wl : ℤ) (cc : Bool) (v : Nat) :
    get_user (log_daily_goals_db db uid date gh th apps wl cc) v = get_user db v := by
  simp [get_user, log_daily_goals_db_users]

end MunichPath

namespace MunichPath

theorem get_user_set_penalties (db : DB) (ps : List PenaltyRow) (v : Nat) :
    get_user { db with penalties := ps } v = get_user db v := rfl

theorem get_user_add_penalty_db (db : DB) (uid : Nat) (amount : ℚ)
    (reason : String) (date v : Nat) :
    get_user (add_penalty_db db uid amount reason date).1 v = get_user db v := rfl

theorem add_penalty_db_penalties (db : DB) (uid : Nat) (amount : ℚ)
    (reason : String) (date : Nat) :
    (add_penalty_db db uid amount reason date).1.penalties =
      db.penalties ++ [⟨uid, amount, reason, date, false⟩] := rfl

/-! ## Claim theorems -/

/-- C3: the goal evaluation passes iff german_hours ≥ 2.0, tech_hours ≥ 3.0,
applications_sent ≥ 5 and words_learned ≥ 50, all boundaries inclusive
(exact threshold values pass); a metric missing from the check-in body
defaults to 0 and forces a Fail verdict. -/
theorem C3_goal_evaluation :
    (∀ gh th : ℚ, ∀ apps wl : ℤ,
      goalsMet gh th apps wl = true ↔ (2 ≤ gh ∧ 3 ≤ th ∧ 5 ≤ apps ∧ 50 ≤ wl)) ∧
    goalsMet 2 3 5 50 = true ∧
    (∀ b : CheckinBody, b.german_hours = none → api_checkin_goals_met b = false) ∧
    (∀ b : CheckinBody, b.tech_hours = none → api_checkin_goals_met b = false) ∧
    (∀ b : CheckinBody, b.applications_sent = none → api_checkin_goals_met b = false) ∧
    (∀ b : CheckinBody, b.words_learned = none → api_checkin_goals_met b = false) := by
  refine ⟨?_, by decide, ?_, ?_, ?_, ?_⟩
  · intro gh th apps wl
    simp [goalsMet, and_assoc]
  · intro b h
    have h0 : (decide ((0 : ℚ) ≥ 2)) = false := by decide
    simp [api_checkin_goals_met, goalsMet, h, h0]
  · intro b h
    have h0 : (decide ((0 : ℚ) ≥ 3)) = false := by decide
    simp [api_checkin_goals_met, goalsMet, h, h0]
  · intro b h
    have h0 : (decide ((0 : ℤ) ≥ 5)) = false := by decide
    simp [api_checkin_goals_met, goalsMet, h, h0]
  · intro b h
    have h0 : (decide ((0 : ℤ) ≥ 50)) = false := by decide
    simp [api_checkin_goals_met, goalsMet, h, h0]

/-- Witness for C3: a body with german_hours absent and the other three
metrics at their thresholds is evaluated to Fail. -/
theorem C3_goal_evaluation_witness :
    api_checkin_goals_met ⟨none, some 3, some 5, some 50⟩ = false :=
  C3_goal_evaluation.2.2.1 ⟨none, some 3, some 5, some 50⟩ rfl

/-- C4 counterexample: user 1 of `lockedDB` is Locked (is_locked = true);
after a Pass verdict (`update_user_streak` with streak_broken = false) the
stored is_locked flag is NOT false — the Pass branch copies the fetched
is_locked value and only clears lock_end_date, contradicting the claim that
a Pass sets is_locked to false. -/
theorem C4_counterexample :
    ¬ ((get_user (update_user_streak lockedDB 1 6 false).1 1).map User.is_locked
        = some false) := by decide

/-- C4 amended: for every existing user, a Pass verdict increments
current_streak and total_streak by 1, clears lock_end_date, sets
last_checkin to the evaluation date, and leaves is_locked UNCHANGED (it is
not reset to false). -/
theorem C4_pass_transition_amended (db : DB) (uid today : Nat) (u : User)
    (hu : get_user db uid = some u) :
    get_user (update_user_streak db uid today false).1 uid =
      some ⟨u.current_streak + 1, u.total_streak + 1, u.is_locked, none, some today⟩ ∧
    (update_user_streak db uid today false).2 = true := by
  refine ⟨?_, ?_⟩ <;>
    simp [update_user_streak, hu, update_user_streak_data, get_user_update_user_row]

/-- Witness for C4 amended: the locked user 1 of `lockedDB` (streak 3, total
10, locked) passes on day 6 and ends with streak 4, total 11, still locked,
lock_end_date cleared. -/
theorem C4_pass_transition_amended_witness :
    get_user (update_user_streak lockedDB 1 6 false).1 1 =
      some ⟨4, 11, true, none, some 6⟩ ∧
    (update_user_streak lockedDB 1 6 false).2 = true :=
  C4_pass_transition_amended lockedDB 1 6 ⟨3, 10, true, some 5, some 4⟩ (by decide)

/-- C9 counterexample: adding a penalty with the non-positive amount -5
is not rejected — the call reports success and a penalty row with amount
-5 is created, contradicting the claim that no row is ever created for
amount ≤ 0. -/
theorem C9_counterexample :
    (add_penalty freshDB 1 (-5) "Late fee" 0).2 = true ∧
    penalties_of (add_penalty freshDB 1 (-5) "Late fee" 0).1 1 =
      [⟨1, -5, "Late fee", 0, false⟩] := by
  exact ⟨rfl, rfl⟩

/-- C9 amended: `add_penalty` performs no validation at all — for every
amount (positive, zero or negative) it reports success and appends exactly
one penalty row with that amount. -/
theorem C9_penalty_no_validation (db : DB) (uid : Nat) (amount : ℚ)
    (reason : String) (today : Nat) :
    add_penalty db uid amount reason today =
      ({ db with penalties := db.penalties ++ [⟨uid, amount, reason, today, false⟩] },
        true) := rfl

/-- C10: when no user record exists for the id, `update_user_streak`
returns False and leaves the store completely unchanged. -/
theorem C10_missing_user_noop (db : DB) (uid today : Nat) (sb : Bool)
    (h : get_user db uid = none) :
    update_user_streak db uid today sb = (db, false) := by
  unfold update_user_streak
  rw [h]

/-- Witness for C10: user 2 does not exist in `freshDB`; the streak update
returns False with the store unchanged. -/
theorem C10_missing_user_noop_witness :
    update_user_streak freshDB 2 0 false = (freshDB, false) :=
  C10_missing_user_noop freshDB 2 0 false (by decide)

end MunichPath

namespace MunichPath

theorem log_daily_goals_fail_eq (db : DB) (uid today : Nat) (gh th : ℚ)
    (apps wl : ℤ) (hm : goalsMet gh th apps wl = false) :
    log_daily_goals db uid today gh th apps wl =
      ⟨(add_penalty
          (update_user_streak (log_daily_goals_db db uid today gh th apps wl false)
            uid today true).1 uid 10 "Daily goals not met" today).1,
        false,
        "Daily goals not met. App locked for 24 hours and penalty applied."⟩ := by
  simp only [log_daily_goals, hm]
  rfl

/-- C1: repeated check-in submission for the same (user, date) is NOT
debounced — each call of `log_daily_goals` re-applies the streak transition.
Submitting the passing record for user 1 on day 0 twice leaves a single
daily-goals row (the upsert is idempotent) but raises total_streak to 2,
contradicting the claim that total_streak increases by at most 1 per date. -/
theorem C1_no_debounce_double_increment :
    (get_user (log_daily_goals (log_daily_goals freshDB 1 0 2 3 5 50).db
        1 0 2 3 5 50).db 1).map User.total_streak = some 2 ∧
    (log_daily_goals (log_daily_goals freshDB 1 0 2 3 5 50).db
        1 0 2 3 5 50).db.daily_goals.length = 1 := by
  exact ⟨rfl, rfl⟩

/-- C2: awarding the same achievement name twice to the same user is NOT a
no-op — the achievements table has no UNIQUE constraint on
(user_id, achievement_name), so both calls report created = true and TWO
rows for (user 1, "Week Warrior") exist afterwards, contradicting the claim
(and the repository's own test, which expects False and one row). -/
theorem C2_duplicate_achievement :
    (add_achievement freshDB 1 "Week Warrior" 0).2 = true ∧
    (add_achievement (add_achievement freshDB 1 "Week Warrior" 0).1
        1 "Week Warrior" 0).2 = true ∧
    (achievements_named (add_achievement (add_achievement freshDB 1 "Week Warrior" 0).1
        1 "Week Warrior" 0).1 1 "Week Warrior").length = 2 := by
  exact ⟨rfl, rfl, rfl⟩

/-- C5: for every existing user, a Fail verdict through `log_daily_goals`
zeroes current_streak, keeps total_streak, locks the app with
lock_end_date = evaluation date + 1, sets last_checkin to the evaluation
date, appends exactly one 10.0 penalty with reason "Daily goals not met"
dated that date, and reports ok = false. -/
theorem C5_fail_transition (db : DB) (uid today : Nat) (gh th : ℚ)
    (apps wl : ℤ) (u : User) (hu : get_user db uid = some u)
    (hm : goalsMet gh th apps wl = false) :
    get_user (log_daily_goals db uid today gh th apps wl).db uid =
      some ⟨0, u.total_streak, true, some (today + 1), some today⟩ ∧
    (log_daily_goals db uid today gh th apps wl).db.penalties =
      db.penalties ++ [⟨uid, 10, "Daily goals not met", today, false⟩] ∧
    (log_daily_goals db uid today gh th apps wl).ok = false := by
  have h1 : get_user (log_daily_goals_db db uid today gh th apps wl false) uid
      = some u := by
    rw [get_user_log_daily_goals_db, hu]
  rw [log_daily_goals_fail_eq db uid today gh th apps wl hm]
  refine ⟨?_, ?_, rfl⟩
  · rw [add_penalty, get_user_add_penalty_db]
    simp [update_user_streak, h1, update_user_streak_data, get_user_update_user_row]
  · rw [add_penalty, add_penalty_db_penalties]
    simp [update_user_streak, h1, update_user_streak_data, update_user_row_penalties,
      log_daily_goals_db_penalties]

/-- Witness for C5: the fresh user 1 submits the Scenario B metrics
(1.0, 1.0, 1, 10) on day 0 and ends with streak 0, locked until day 1, one
10.0 penalty, and a negative verdict. -/
theorem C5_fail_transition_witness :
    get_user (log_daily_goals freshDB 1 0 1 1 1 10).db 1 =
      some ⟨0, 0, true, some 1, some 0⟩ ∧
    (log_daily_goals freshDB 1 0 1 1 1 10).db.penalties =
      [⟨1, 10, "Daily goals not met", 0, false⟩] ∧
    (log_daily_goals freshDB 1 0 1 1 1 10).ok = false := by
  have h := C5_fail_transition freshDB 1 0 1 1 1 10 ⟨0, 0, false, none, none⟩
    (by decide) (by decide)
  simpa using h

/-- C6: the confirmed emergency unlock of the settings page, run from any
state (Locked or Active), appends exactly one 50.0 penalty with reason
"Emergency unlock", resets current_streak to 0 (idempotently), and clears
is_locked and lock_end_date; and the penalty write commits BEFORE the lock
state is touched — at the intermediate state the penalty is already present
while the user row is unchanged — so no intermediate state of the sequence
is unlocked-but-uncharged. -/
theorem C6_emergency_unlock (db : DB) (uid today : Nat) (u : User)
    (hu : get_user db uid = some u) :
    (settings_emergency_unlock db uid today).penalties =
        db.penalties ++ [⟨uid, 50, "Emergency unlock", today, false⟩] ∧
    get_user (settings_emergency_unlock db uid today) uid =
        some ⟨0, u.total_streak, false, none, u.last_checkin⟩ ∧
    (emergency_unlock_mid db uid today).penalties =
        db.penalties ++ [⟨uid, 50, "Emergency unlock", today, false⟩] ∧
    (emergency_unlock_mid db uid today).users = db.users := by
  refine ⟨rfl, ?_, rfl, rfl⟩
  have h2 : settings_emergency_unlock db uid today =
      update_user_row { db with penalties :=
          db.penalties ++ [⟨uid, 50, "Emergency unlock", today, false⟩] } uid
        (fun v => { v with current_streak := 0, is_locked := false,
                           lock_end_date := none }) := rfl
  rw [h2, get_user_update_user_row, get_user_set_penalties, hu]
  rfl

/-- Witness for C6: emergency unlock of the locked user 1 of `lockedDB`
(streak 3, locked until day 5) on day 4 yields one 50.0 penalty and an
unlocked user with streak 0; the intermediate state already holds the
penalty with the user row untouched. -/
theorem C6_emergency_unlock_witness :
    (settings_emergency_unlock lockedDB 1 4).penalties =
        [⟨1, 50, "Emergency unlock", 4, false⟩] ∧
    get_user (settings_emergency_unlock lockedDB 1 4) 1 =
        some ⟨0, 10, false, none, some 4⟩ ∧
    (emergency_unlock_mid lockedDB 1 4).penalties =
        [⟨1, 50, "Emergency unlock", 4, false⟩] ∧
    (emergency_unlock_mid lockedDB 1 4).users = lockedDB.users := by
  have h := C6_emergency_unlock lockedDB 1 4 ⟨3, 10, true, some 5, some 4⟩ (by decide)
  simpa using h

/-- C7: the 3h-German redemption of `lock_page` never unlocks anyone — the
call `log_daily_goals(user_id, german_hours=3.0, checkin_completed=1)` does
not bind the function's parameters (checkin_completed is not a parameter and
tech_hours, applications_sent, words_learned are missing), so the handler
raises TypeError before reaching `unlock_app`, for every store and user,
contradicting the claim that the user becomes Active immediately. -/
theorem C7_redemption_raises_type_error (db : DB) (uid today : Nat) :
    lock_page_redeem_german db uid today = Except.error "TypeError" := by
  have h : kwargs_bind_ok lock_page_german_kwargs = false := by decide
  simp [lock_page_redeem_german, h]

/-- C8: seven consecutive passing check-ins through the UI handler never
create "Week Warrior" — each submission applies the streak transition twice
(once inside `log_daily_goals`, once again in `checkin_page`), so the streak
after day n is 2n (14 after seven days) and the exact-match streak == 7
milestone check never fires, contradicting the claim that the achievement is
created exactly once at day 7. -/
theorem C8_week_warrior_never_created :
    (get_user (run_week freshDB 1 7) 1).map User.current_streak = some 14 ∧
    achievements_named (run_week freshDB 1 7) 1 "Week Warrior" = [] := by
  exact ⟨rfl, rfl⟩

end MunichPath
